import Mathlib

/-!
Verification development for the `kakaolink` client (`kakaolink/__init__.py`).

The Python source is shallowly embedded: pure fragments become Lean
functions, `raise` becomes `Except`, and the network-facing methods are
modelled as functions of the relevant response data that additionally
report the ordered list of network operations they perform.  Python
strings are modelled as `String` / `List Char`; Python `bytes` as
`List Nat` with every entry below 256.  Python library primitives used by
the source (`str.split`, `str.strip`, `base64.urlsafe_b64decode`) are
embedded as executable functions that follow the CPython semantics
(non-strict `binascii.a2b_base64`: characters outside the alphabet are
skipped, excess padding is ignored, a leftover quad is an error).
-/

/-- Exception classes.  The first four constructors model raw Python
errors (`IndexError`, `binascii.Error`, JSON decode errors, `KeyError`);
the last five model the classes defined at the top of
`kakaolink/__init__.py`: `KakaoLinkException` and its four subclasses. -/
inductive PyExc where
  | indexError
  | binasciiError
  | jsonDecodeError
  | keyError
  | kakaoLinkException
  | receiverNotFound
  | loginExc
  | twoFAExc
  | sendExc
deriving DecidableEq

/-- The exception classes of the library's own taxonomy
(`KakaoLinkException` and its subclasses). -/
def PyExc.isKakaoLink : PyExc → Bool
  | .kakaoLinkException => true
  | .receiverNotFound => true
  | .loginExc => true
  | .twoFAExc => true
  | .sendExc => true
  | _ => false

/-- Predicate `catches handler raised`: whether a Python
`except handler` clause catches an instance of class `raised`:
the classes must be equal, or `handler` must be the base class
`KakaoLinkException`, of which the other four library classes are
subclasses (the builtin error hierarchy is not needed here). -/
def catches (handler raised : PyExc) : Bool :=
  handler == raised || (handler == .kakaoLinkException && raised.isKakaoLink)

/-- One candidate record of the decoded picker payload.  Only the three
keys read by `_picker_data_search` are modelled; `none` stands for an
absent key, `some s` for a present string value. -/
structure Receiver where
  title : Option String
  profile_nickname : Option String
  chat_room_type : Option String
deriving DecidableEq

/-- The decoded picker payload, restricted to the two candidate lists that
`_picker_data_search` iterates over (the payload also carries `checksum`,
`csrfToken` and `shortKey`, which are only forwarded to the send request
and are modelled separately). -/
structure PickerData where
  chats : List Receiver
  friends : List Receiver
deriving DecidableEq

/-! ### Python string primitives -/

/-- Helper `stripPre needle hay`: if `needle` is a prefix of `hay`, the remainder
of `hay` after it, else `none`. -/
def stripPre : List Char → List Char → Option (List Char)
  | [], hay => some hay
  | _ :: _, [] => none
  | n :: ns, h :: hs => if n = h then stripPre ns hs else none

/-- Fuelled worker for Python `str.split` with a non-empty separator:
scan left to right, cutting at each non-overlapping occurrence of the
separator.  The fuel only needs to exceed the length of the scanned list. -/
def pySplitAux (sep : List Char) : Nat → List Char → List Char → List (List Char)
  | _, [], cur => [cur.reverse]
  | 0, hay, cur => [cur.reverse ++ hay]
  | fuel + 1, h :: t, cur =>
    match stripPre sep (h :: t) with
    | some rest => cur.reverse :: pySplitAux sep fuel rest []
    | none => pySplitAux sep fuel t (h :: cur)

/-- Python `hay.split(sep)` for a non-empty separator `sep`. -/
def pySplit (hay sep : List Char) : List (List Char) :=
  pySplitAux sep (hay.length + 1) hay []

/-- The characters removed by Python `str.strip()` (the ASCII whitespace
characters; the rare non-ASCII whitespace code points are not modelled). -/
def isPySpace (c : Char) : Bool :=
  c = ' ' || c = '\t' || c = '\n' || c = '\r' || c = '\x0b' || c = '\x0c'

/-- Python `str.strip()`. -/
def pyStrip (l : List Char) : List Char :=
  ((l.dropWhile isPySpace).reverse.dropWhile isPySpace).reverse

/-- Python `needle in hay` for strings: does `needle` occur contiguously
in `hay`?  Scans every suffix of `hay` for `needle` as a prefix. -/
def pyIn : List Char → List Char → Bool
  | needle, [] => (stripPre needle []).isSome
  | needle, h :: t => (stripPre needle (h :: t)).isSome || pyIn needle t

/-! ### Recipient resolver: `_picker_data_search` (lines 145-184) -/

/-- Line 167: `receiver.get("title") or receiver.get("profile_nickname", "")`.
Python `or` falls through on a falsy left operand, so an absent title and
a present-but-empty title both fall back to the nickname (or `""`). -/
def resolvedTitle (r : Receiver) : String :=
  match r.title with
  | some t => if t = "" then r.profile_nickname.getD "" else t
  | none => r.profile_nickname.getD ""

/-- Lines 172-175: a candidate is skipped exactly when it carries a truthy
`chat_room_type` tag, `search_room_type` is not `"ALL"`, and the tag
differs from `search_room_type`.  This function is true when the
candidate survives the filter. -/
def roomTypeOk (search_room_type : String) (r : Receiver) : Bool :=
  match r.chat_room_type with
  | none => true
  | some t =>
    if t = "" then true
    else if search_room_type = "ALL" then true
    else decide (search_room_type = t)

/-- Lines 177-182: the match test against the resolved title —
case-sensitive equality when `search_exact`, Python substring `in`
otherwise. -/
def nameMatch (receiver_name : String) (search_exact : Bool) (r : Receiver) : Bool :=
  if search_exact then decide (resolvedTitle r = receiver_name)
  else pyIn receiver_name.data (resolvedTitle r).data

/-- The whole per-candidate test of the loop body: survive the room-type
filter and pass the match test. -/
def searchPred (receiver_name : String) (search_exact : Bool)
    (search_room_type : String) (r : Receiver) : Bool :=
  roomTypeOk search_room_type r && nameMatch receiver_name search_exact r

/-- Lines 160-163: the iterated list — chats (when `search_from` is
`"ALL"` or `"CHATROOMS"`) followed by friends (when `search_from` is
`"ALL"` or `"FRIENDS"`). -/
def searchList (picker_data : PickerData) (search_from : String) : List Receiver :=
  (if search_from = "ALL" ∨ search_from = "CHATROOMS" then picker_data.chats else []) ++
  (if search_from = "ALL" ∨ search_from = "FRIENDS" then picker_data.friends else [])

/-- Method `_picker_data_search`: return the first candidate of `searchList`
passing `searchPred`, or raise `KakaoLinkReceiverNotFoundExcepetion`
(line 184) when the loop falls through. -/
def picker_data_search (receiver_name : String) (picker_data : PickerData)
    (search_exact : Bool) (search_from search_room_type : String) :
    Except PyExc Receiver :=
  match (searchList picker_data search_from).find?
      (searchPred receiver_name search_exact search_room_type) with
  | some r => .ok r
  | none => .error .receiverNotFound

/-! ### Helper lemmas about the string primitives -/

theorem stripPre_eq_some : ∀ (n h r : List Char), stripPre n h = some r ↔ h = n ++ r := by
  intro n
  induction n with
  | nil => intro h r; simp [stripPre]
  | cons a as ih =>
    intro h r
    cases h with
    | nil => simp [stripPre]
    | cons b bs =>
      by_cases hab : a = b
      · subst hab
        simp [stripPre, ih]
      · show (if a = b then stripPre as bs else none) = some r ↔ _
        rw [if_neg hab]
        constructor
        · intro hc
          cases hc
        · intro hc
          injection hc with h1 _
          exact absurd h1.symm hab

theorem pyIn_iff : ∀ (hay needle : List Char),
    pyIn needle hay = true ↔ ∃ pre post, hay = pre ++ needle ++ post := by
  intro hay
  induction hay with
  | nil =>
    intro needle
    cases needle with
    | nil => simp [pyIn, stripPre]
    | cons a as =>
      simp [pyIn, stripPre]
  | cons h t ih =>
    intro needle
    simp only [pyIn, Bool.or_eq_true, Option.isSome_iff_exists, ih]
    constructor
    · rintro (⟨r, hr⟩ | ⟨pre, post, hpp⟩)
      · exact ⟨[], r, by simpa using (stripPre_eq_some needle (h :: t) r).mp hr⟩
      · exact ⟨h :: pre, post, by simp [hpp]⟩
    · rintro ⟨pre, post, hpp⟩
      cases pre with
      | nil =>
        exact Or.inl ⟨post, (stripPre_eq_some needle (h :: t) post).mpr (by simpa using hpp)⟩
      | cons p ps =>
        right
        simp only [List.cons_append, List.cons.injEq] at hpp
        exact ⟨ps, post, hpp.2⟩

/-- Unfolding of the raise/return wrapper around the loop. -/
theorem picker_data_search_ok_iff (receiver_name : String) (picker_data : PickerData)
    (search_exact : Bool) (search_from search_room_type : String) (r : Receiver) :
    picker_data_search receiver_name picker_data search_exact search_from search_room_type =
      .ok r ↔
    (searchList picker_data search_from).find?
      (searchPred receiver_name search_exact search_room_type) = some r := by
  unfold picker_data_search
  cases hf : (searchList picker_data search_from).find?
      (searchPred receiver_name search_exact search_room_type) with
  | none => simp
  | some a => simp

/-- C1: for every payload and inputs, `_picker_data_search` scans chats
first and friends second (each list present only when `search_from` is
`"ALL"` or names its category — see `searchList`), and returns `r`
exactly when `r` passes the per-candidate test and every candidate
placed before it in that concatenated order fails the test: a
deterministic, order-sensitive, first-match policy (determinism is
inherent, `picker_data_search` being a function of its arguments). -/
theorem resolve_first_match_policy (receiver_name : String) (picker_data : PickerData)
    (search_exact : Bool) (search_from search_room_type : String) (r : Receiver) :
    picker_data_search receiver_name picker_data search_exact search_from search_room_type =
      .ok r ↔
    searchPred receiver_name search_exact search_room_type r = true ∧
    ∃ before after, searchList picker_data search_from = before ++ r :: after ∧
      ∀ x ∈ before, searchPred receiver_name search_exact search_room_type x = false := by
  rw [picker_data_search_ok_iff, List.find?_eq_some]
  simp [Bool.not_eq_true']

/-- C1 witness: on the concrete payload whose chats list is
`[⟨some "A", none, none⟩]`, the policy theorem instantiated at the first
position yields the concrete search result. -/
theorem resolve_first_match_policy_witness :
    picker_data_search "A" ⟨[⟨some "A", none, none⟩], []⟩ true "ALL" "ALL" =
      .ok ⟨some "A", none, none⟩ :=
  (resolve_first_match_policy "A" ⟨[⟨some "A", none, none⟩], []⟩ true "ALL" "ALL"
      ⟨some "A", none, none⟩).mpr
    ⟨by decide, [], [], by decide, by simp⟩

/-- C8: `_picker_data_search` raises
`KakaoLinkReceiverNotFoundExcepetion` exactly when no candidate of the
ordered, category-gated sequence passes both the room-type filter and
the match test; in particular it does so on a payload whose `chats` and
`friends` are both empty. -/
theorem receiver_not_found_iff_no_match (receiver_name : String) (picker_data : PickerData)
    (search_exact : Bool) (search_from search_room_type : String) :
    (picker_data_search receiver_name picker_data search_exact search_from search_room_type =
        .error .receiverNotFound ↔
      ∀ r ∈ searchList picker_data search_from,
        ¬(roomTypeOk search_room_type r = true ∧
          nameMatch receiver_name search_exact r = true)) ∧
    picker_data_search receiver_name ⟨[], []⟩ search_exact search_from search_room_type =
      .error .receiverNotFound := by
  constructor
  · unfold picker_data_search
    cases hf : (searchList picker_data search_from).find?
        (searchPred receiver_name search_exact search_room_type) with
    | none =>
      rw [List.find?_eq_none] at hf
      simpa [searchPred] using hf
    | some a =>
      have := List.find?_some hf
      have hmem := List.mem_of_find?_eq_some hf
      simp only [searchPred, Bool.and_eq_true] at this
      simp only [reduceCtorEq, false_iff, not_forall]
      exact ⟨a, hmem, by simp [this]⟩
  · unfold picker_data_search searchList
    simp

/-- C8 witness: the empty-payload conjunct at concrete inputs. -/
theorem receiver_not_found_iff_no_match_witness :
    picker_data_search "x" ⟨[], []⟩ true "ALL" "ALL" = .error .receiverNotFound :=
  (receiver_not_found_iff_no_match "x" ⟨[], []⟩ true "ALL" "ALL").2

/-- Title resolution as claim C6 words it: the `title` field whenever it
is present (regardless of its value), else the nickname, else `""`.
Spec-side definition, to be compared with `resolvedTitle` (the
embedding of line 167). -/
def claimResolvedTitle (r : Receiver) : String :=
  match r.title with
  | some t => t
  | none => r.profile_nickname.getD ""

/-- C6 counterexample: a record whose `title` is present but empty and
whose nickname is `"Alice"`.  The code resolves the title by Python
truthiness, so it matches the exact query `"Alice"` and is returned,
although the claim's title ("the title field if present" — here `""`)
differs from the query, under which the claim admits no match. -/
theorem empty_title_falls_back_to_nickname :
    resolvedTitle ⟨some "", some "Alice", none⟩ = "Alice" ∧
    claimResolvedTitle ⟨some "", some "Alice", none⟩ = "" ∧
    picker_data_search "Alice" ⟨[], [⟨some "", some "Alice", none⟩]⟩ true "ALL" "ALL" =
      .ok ⟨some "", some "Alice", none⟩ ∧
    claimResolvedTitle ⟨some "", some "Alice", none⟩ ≠ "Alice" :=
  ⟨rfl, rfl, rfl, by decide⟩

/-- C6 (amended): the title used for matching is the candidate's `title`
field if present and non-empty, else its `profile_nickname` field if
present, else the empty string (a present `title` whose value is the
empty string is skipped, Python `or` being truthiness-based); with
exact matching a record passes the test precisely on case-sensitive
full equality of that title with the query, and with non-exact matching
precisely when the query occurs contiguously inside that title. -/
theorem title_resolution_and_match (receiver_name : String) (r : Receiver) :
    (∀ t, r.title = some t → t ≠ "" → resolvedTitle r = t) ∧
    ((r.title = none ∨ r.title = some "") →
      resolvedTitle r = r.profile_nickname.getD "") ∧
    (nameMatch receiver_name true r = true ↔ resolvedTitle r = receiver_name) ∧
    (nameMatch receiver_name false r = true ↔
      ∃ pre post, (resolvedTitle r).data = pre ++ receiver_name.data ++ post) := by
  refine ⟨?_, ?_, ?_, ?_⟩
  · intro t ht hne
    simp [resolvedTitle, ht, hne]
  · intro h
    rcases h with h | h <;> simp [resolvedTitle, h]
  · simp [nameMatch]
  · show pyIn receiver_name.data (resolvedTitle r).data = true ↔ _
    exact pyIn_iff (resolvedTitle r).data receiver_name.data

/-- C6 witness: the amended match test at the concrete record
`⟨none, some "Alice", none⟩` and queries `"Alice"` (exact) and
`"lic"` (substring). -/
theorem title_resolution_and_match_witness :
    nameMatch "Alice" true ⟨none, some "Alice", none⟩ = true ∧
    nameMatch "lic" false ⟨none, some "Alice", none⟩ = true :=
  ⟨(title_resolution_and_match "Alice" ⟨none, some "Alice", none⟩).2.2.1.mpr rfl,
   (title_resolution_and_match "lic" ⟨none, some "Alice", none⟩).2.2.2.mpr
     ⟨['A'], ['e'], rfl⟩⟩

/-- C7: the room-type filter lets every untagged candidate through (in
particular friend candidates, which carry no `chat_room_type`), and it
rejects a candidate exactly when that candidate carries a non-empty
`chat_room_type` tag, `search_room_type` is not `"ALL"`, and the tag
differs from `search_room_type` — so only tagged chat candidates are
ever skipped. -/
theorem room_filter_spares_untagged (search_room_type : String) (r : Receiver) :
    (r.chat_room_type = none → roomTypeOk search_room_type r = true) ∧
    (roomTypeOk search_room_type r = false ↔
      ∃ t, r.chat_room_type = some t ∧ t ≠ "" ∧
        search_room_type ≠ "ALL" ∧ search_room_type ≠ t) := by
  constructor
  · intro h
    unfold roomTypeOk
    rw [h]
  · unfold roomTypeOk
    cases hr : r.chat_room_type with
    | none => simp
    | some t =>
      by_cases h1 : t = ""
      · simp [h1]
      · by_cases h2 : search_room_type = "ALL"
        · simp [h1, h2]
        · simp [h1, h2, decide_eq_false_iff_not]

/-- C7 witness: a friend-style record (no room tag) passes the filter
even under the specific room type `"DirectChat"`. -/
theorem room_filter_spares_untagged_witness :
    roomTypeOk "DirectChat" ⟨none, some "Bob", none⟩ = true :=
  (room_filter_spares_untagged "DirectChat" ⟨none, some "Bob", none⟩).1 rfl

/-- C10: a candidate whose `chat_room_type` is absent or the empty
string bypasses the room-type filter for every requested
`search_room_type` (the guard on line 172 tests Python truthiness), and
concretely a chat whose tag is `""` is returned by the search even when
the specific type `"DirectChat"` is requested. -/
theorem falsy_room_tag_bypasses_filter (search_room_type : String) (r : Receiver) :
    (r.chat_room_type = none ∨ r.chat_room_type = some "" →
      roomTypeOk search_room_type r = true) ∧
    picker_data_search "Room" ⟨[⟨some "Room", none, some ""⟩], []⟩ true "ALL" "DirectChat" =
      .ok ⟨some "Room", none, some ""⟩ := by
  constructor
  · intro h
    unfold roomTypeOk
    rcases h with h | h <;> rw [h]
    simp
  · rfl

/-- C10 witness: the bypass at the concrete record whose tag is `""`. -/
theorem falsy_room_tag_bypasses_filter_witness :
    roomTypeOk "MultiChat" ⟨some "Room", none, some ""⟩ = true :=
  (falsy_room_tag_bypasses_filter "MultiChat" ⟨some "Room", none, some ""⟩).1 (Or.inr rfl)

/-! ### Base64: `base64.urlsafe_b64encode` / `base64.urlsafe_b64decode`

The decoder follows CPython's non-strict `binascii.a2b_base64`: characters
outside the alphabet are skipped; a `'='` is ignored before two data
characters of the current quad have been seen, and finishes the decode
once the quad is completed by padding; output bytes are emitted as data
characters arrive; a leftover quad at the end of input is an error
(`binascii.Error`). -/

/-- The url-safe base64 alphabet, index to character. -/
def b64EncChar (v : Nat) : Char :=
  if v < 26 then Char.ofNat (65 + v)
  else if v < 52 then Char.ofNat (97 + (v - 26))
  else if v < 62 then Char.ofNat (48 + (v - 52))
  else if v = 62 then '-'
  else '_'

/-- Character to sextet value.  `urlsafe_b64decode` translates `'-'`/`'_'`
to `'+'`/`'/'` and then decodes with the standard table, so both
alphabets are accepted here. -/
def b64val (c : Char) : Option Nat :=
  if 65 ≤ c.toNat ∧ c.toNat ≤ 90 then some (c.toNat - 65)
  else if 97 ≤ c.toNat ∧ c.toNat ≤ 122 then some (c.toNat - 97 + 26)
  else if 48 ≤ c.toNat ∧ c.toNat ≤ 57 then some (c.toNat - 48 + 52)
  else if c = '+' ∨ c = '-' then some 62
  else if c = '/' ∨ c = '_' then some 63
  else none

/-- Python `base64.urlsafe_b64encode`: bytes to characters, three bytes per quad,
with `'='` padding on a final group of one or two bytes. -/
def b64encodeBytes : List Nat → List Char
  | [] => []
  | [a] => [b64EncChar (a / 4), b64EncChar (a % 4 * 16), '=', '=']
  | [a, b] => [b64EncChar (a / 4), b64EncChar (a % 4 * 16 + b / 16),
               b64EncChar (b % 16 * 4), '=']
  | a :: b :: c :: rest =>
    b64EncChar (a / 4) :: b64EncChar (a % 4 * 16 + b / 16) ::
    b64EncChar (b % 16 * 4 + c / 64) :: b64EncChar (c % 64) :: b64encodeBytes rest

/-- The data characters of `b64encodeBytes`, i.e. the encoding with its
trailing `'='` padding stripped — the usual shape of a base64 blob
embedded in a web page, whose length need not be a multiple of 4. -/
def b64DataChars : List Nat → List Char
  | [] => []
  | [a] => [b64EncChar (a / 4), b64EncChar (a % 4 * 16)]
  | [a, b] => [b64EncChar (a / 4), b64EncChar (a % 4 * 16 + b / 16),
               b64EncChar (b % 16 * 4)]
  | a :: b :: c :: rest =>
    b64EncChar (a / 4) :: b64EncChar (a % 4 * 16 + b / 16) ::
    b64EncChar (b % 16 * 4 + c / 64) :: b64EncChar (c % 64) :: b64DataChars rest

/-- Number of `'='` characters `b64encodeBytes` appends. -/
def b64PadCount : List Nat → Nat
  | [] => 0
  | [_] => 2
  | [_, _] => 1
  | _ :: _ :: _ :: rest => b64PadCount rest

/-- CPython `binascii.a2b_base64`, non-strict mode, on inputs restricted
to characters.  State: current quad position (0-3), the pending bits of
the previous character, the count of pending padding characters, and the
output accumulator. -/
def a2bAux : List Char → Nat → Nat → Nat → List Nat → Except PyExc (List Nat)
  | [], qp, _, _, acc => if qp = 0 then .ok acc else .error .binasciiError
  | ch :: cs, qp, left, pads, acc =>
    if ch = '=' then
      if 2 ≤ qp then
        if 4 ≤ qp + (pads + 1) then .ok acc
        else a2bAux cs qp left (pads + 1) acc
      else a2bAux cs qp left pads acc
    else
      match b64val ch with
      | none => a2bAux cs qp left pads acc
      | some v =>
        match qp with
        | 0 => a2bAux cs 1 v 0 acc
        | 1 => a2bAux cs 2 (v % 16) 0 (acc ++ [left * 4 + v / 16])
        | 2 => a2bAux cs 3 (v % 4) 0 (acc ++ [left * 16 + v / 4])
        | _ => a2bAux cs 0 0 0 (acc ++ [left * 64 + v])

/-- Python `base64.urlsafe_b64decode` on a character list. -/
def urlsafe_b64decode (s : List Char) : Except PyExc (List Nat) :=
  a2bAux s 0 0 0 []

/-- Line 224-227 of the source: decode after appending the literal string
`"===="` to the blob. -/
def decodeWithPadding (blob : List Char) : Except PyExc (List Nat) :=
  urlsafe_b64decode (blob ++ "====".data)

/-- Decoding inverts encoding on each sextet, and no alphabet character
is the padding character. -/
theorem b64_enc_table : ∀ v : Nat, v < 64 →
    b64val (b64EncChar v) = some v ∧ b64EncChar v ≠ '=' := by decide

/-- Padding characters are skipped while the quad is empty, and an input
of padding alone decodes to the accumulator. -/
theorem a2bAux_pads_qp0 : ∀ (n left pads : Nat) (acc : List Nat),
    a2bAux (List.replicate n '=') 0 left pads acc = .ok acc := by
  intro n
  induction n with
  | zero => intro left pads acc; rfl
  | succ k ih =>
    intro left pads acc
    rw [List.replicate_succ]
    exact ih left pads acc

/-- With two data characters pending, two padding characters finish the
decode (further characters are ignored). -/
theorem a2bAux_pads_qp2 (m left : Nat) (acc : List Nat) :
    a2bAux (List.replicate (m + 2) '=') 2 left 0 acc = .ok acc := rfl

/-- With three data characters pending, one padding character finishes
the decode. -/
theorem a2bAux_pads_qp3 (m left : Nat) (acc : List Nat) :
    a2bAux (List.replicate (m + 1) '=') 3 left 0 acc = .ok acc := rfl

/-- One decode step on a data character, at each quad position. -/
theorem a2bAux_step0 {ch : Char} {v : Nat} (cs : List Char) (left pads : Nat)
    (acc : List Nat) (hne : ch ≠ '=') (hv : b64val ch = some v) :
    a2bAux (ch :: cs) 0 left pads acc = a2bAux cs 1 v 0 acc := by
  simp only [a2bAux, if_neg hne, hv]

theorem a2bAux_step1 {ch : Char} {v : Nat} (cs : List Char) (left pads : Nat)
    (acc : List Nat) (hne : ch ≠ '=') (hv : b64val ch = some v) :
    a2bAux (ch :: cs) 1 left pads acc =
      a2bAux cs 2 (v % 16) 0 (acc ++ [left * 4 + v / 16]) := by
  simp [a2bAux, if_neg hne, hv]

theorem a2bAux_step2 {ch : Char} {v : Nat} (cs : List Char) (left pads : Nat)
    (acc : List Nat) (hne : ch ≠ '=') (hv : b64val ch = some v) :
    a2bAux (ch :: cs) 2 left pads acc =
      a2bAux cs 3 (v % 4) 0 (acc ++ [left * 16 + v / 4]) := by
  simp [a2bAux, if_neg hne, hv]

theorem a2bAux_step3 {ch : Char} {v : Nat} (cs : List Char) (left pads : Nat)
    (acc : List Nat) (hne : ch ≠ '=') (hv : b64val ch = some v) :
    a2bAux (ch :: cs) 3 left pads acc =
      a2bAux cs 0 0 0 (acc ++ [left * 64 + v]) := by
  simp [a2bAux, if_neg hne, hv]

/-- The decoder, run on the padding-stripped encoding of any byte list
followed by at least two `'='` characters, recovers exactly those
bytes. -/
theorem a2b_decode_data :
    ∀ (bs acc : List Nat) (m : Nat), (∀ x ∈ bs, x < 256) →
      a2bAux (b64DataChars bs ++ List.replicate (m + 2) '=') 0 0 0 acc =
        .ok (acc ++ bs)
  | [], acc, m, _ => by
    simp only [b64DataChars, List.nil_append, List.append_nil]
    exact a2bAux_pads_qp0 (m + 2) 0 0 acc
  | [a], acc, m, h => by
    have ha : a < 256 := h a (by simp)
    have h1 := b64_enc_table (a / 4) (by omega)
    have h2 := b64_enc_table (a % 4 * 16) (by omega)
    simp only [b64DataChars, List.cons_append, List.nil_append]
    rw [a2bAux_step0 _ _ _ _ h1.2 h1.1, a2bAux_step1 _ _ _ _ h2.2 h2.1,
      a2bAux_pads_qp2]
    have : a / 4 * 4 + a % 4 * 16 / 16 = a := by omega
    rw [this]
  | [a, b], acc, m, h => by
    have ha : a < 256 := h a (by simp)
    have hb : b < 256 := h b (by simp)
    have h1 := b64_enc_table (a / 4) (by omega)
    have h2 := b64_enc_table (a % 4 * 16 + b / 16) (by omega)
    have h3 := b64_enc_table (b % 16 * 4) (by omega)
    simp only [b64DataChars, List.cons_append, List.nil_append]
    rw [a2bAux_step0 _ _ _ _ h1.2 h1.1, a2bAux_step1 _ _ _ _ h2.2 h2.1,
      a2bAux_step2 _ _ _ _ h3.2 h3.1, a2bAux_pads_qp3]
    have e1 : a / 4 * 4 + (a % 4 * 16 + b / 16) / 16 = a := by omega
    have e2 : (a % 4 * 16 + b / 16) % 16 * 16 + b % 16 * 4 / 4 = b := by omega
    rw [e1, List.append_assoc, e2]
    rfl
  | a :: b :: c :: rest, acc, m, h => by
    have ha : a < 256 := h a (by simp)
    have hb : b < 256 := h b (by simp)
    have hc : c < 256 := h c (by simp)
    have h1 := b64_enc_table (a / 4) (by omega)
    have h2 := b64_enc_table (a % 4 * 16 + b / 16) (by omega)
    have h3 := b64_enc_table (b % 16 * 4 + c / 64) (by omega)
    have h4 := b64_enc_table (c % 64) (by omega)
    simp only [b64DataChars, List.cons_append]
    rw [a2bAux_step0 _ _ _ _ h1.2 h1.1, a2bAux_step1 _ _ _ _ h2.2 h2.1,
      a2bAux_step2 _ _ _ _ h3.2 h3.1, a2bAux_step3 _ _ _ _ h4.2 h4.1]
    have e1 : a / 4 * 4 + (a % 4 * 16 + b / 16) / 16 = a := by omega
    have e2 : (a % 4 * 16 + b / 16) % 16 * 16 + (b % 16 * 4 + c / 64) / 4 = b := by
      omega
    have e3 : (b % 16 * 4 + c / 64) % 4 * 64 + c % 64 = c := by omega
    rw [e1, e2, e3,
      a2b_decode_data rest (acc ++ [a] ++ [b] ++ [c]) m
        (fun x hx => h x (by simp [hx]))]
    simp

/-- Encoding `b64encodeBytes` is `b64DataChars` followed by its padding. -/
theorem b64encode_eq_data_pad :
    ∀ bs, b64encodeBytes bs = b64DataChars bs ++ List.replicate (b64PadCount bs) '='
  | [] => rfl
  | [_] => rfl
  | [_, _] => rfl
  | a :: b :: c :: rest => by
    simp only [b64encodeBytes, b64DataChars, b64PadCount, List.cons_append]
    rw [b64encode_eq_data_pad rest]

/-- C5 counterexample: the decode step of `_get_picker_data` appends the
four-character string `"===="` to the blob, so for the well-formed
unpadded blob `"QQ"` (the encoding of the byte 65 with padding
stripped) the string reaching the decoder is `"QQ===="`, of length 6 —
not a multiple of 4.  Decoding nevertheless round-trips, the decoder
ignoring the excess padding. -/
theorem padding_appends_four_equals :
    b64DataChars [65] = ['Q', 'Q'] ∧
    (b64DataChars [65] ++ "====".data).length % 4 = 2 ∧
    decodeWithPadding (b64DataChars [65]) = .ok [65] :=
  ⟨rfl, rfl, rfl⟩

/-- C5 (amended): the decode step appends four `'='` characters to the
extracted blob (which need not make its length a multiple of 4; the
non-strict decoder ignores excess padding), and for every well-formed
encoded input — the url-safe base64 encoding of any byte sequence,
with or without its `'='` padding, including blobs whose length is not
a multiple of 4 — decoding round-trips to the original bytes, hence to
the original JSON value those bytes spell. -/
theorem base64_decode_roundtrip (bs : List Nat) (h : ∀ x ∈ bs, x < 256) :
    decodeWithPadding (b64DataChars bs) = .ok bs ∧
    decodeWithPadding (b64encodeBytes bs) = .ok bs := by
  have hq : "====".data = List.replicate (2 + 2) '=' := rfl
  constructor
  · show a2bAux (b64DataChars bs ++ "====".data) 0 0 0 [] = .ok bs
    rw [hq]
    simpa using a2b_decode_data bs [] 2 h
  · show a2bAux (b64encodeBytes bs ++ "====".data) 0 0 0 [] = .ok bs
    rw [b64encode_eq_data_pad bs, hq, List.append_assoc, ← List.replicate_add]
    have harith : b64PadCount bs + (2 + 2) = b64PadCount bs + 2 + 2 := by omega
    rw [harith]
    simpa using a2b_decode_data bs [] (b64PadCount bs + 2) h

/-- C5 witness: the round-trip at the concrete bytes `[65, 66, 67, 69]`
(unpadded blob `"QUJDRQ"`, length 6, not a multiple of 4). -/
theorem base64_decode_roundtrip_witness :
    decodeWithPadding (b64DataChars [65, 66, 67, 69]) = .ok [65, 66, 67, 69] ∧
    b64DataChars [65, 66, 67, 69] = "QUJDRQ".data :=
  ⟨(base64_decode_roundtrip [65, 66, 67, 69] (by decide)).1, rfl⟩

/-- The only error the base64 decoder ever raises is `binascii.Error`. -/
theorem a2bAux_error_binascii :
    ∀ (cs : List Char) (qp left pads : Nat) (acc : List Nat) (e : PyExc),
      a2bAux cs qp left pads acc = .error e → e = .binasciiError := by
  intro cs
  induction cs with
  | nil =>
    intro qp left pads acc e h
    simp only [a2bAux] at h
    by_cases hq : qp = 0
    · rw [if_pos hq] at h
      cases h
    · rw [if_neg hq] at h
      injection h with h'
      exact h'.symm
  | cons c t ih =>
    intro qp left pads acc e h
    simp only [a2bAux] at h
    by_cases hc : c = '='
    · rw [if_pos hc] at h
      by_cases h2 : 2 ≤ qp
      · rw [if_pos h2] at h
        by_cases h4 : 4 ≤ qp + (pads + 1)
        · rw [if_pos h4] at h
          cases h
        · rw [if_neg h4] at h
          exact ih _ _ _ _ _ h
      · rw [if_neg h2] at h
        exact ih _ _ _ _ _ h
    · rw [if_neg hc] at h
      cases hv : b64val c with
      | none =>
        simp only [hv] at h
        exact ih _ _ _ _ _ h
      | some v =>
        simp only [hv] at h
        match qp, h with
        | 0, h => exact ih _ _ _ _ _ h
        | 1, h => exact ih _ _ _ _ _ h
        | 2, h => exact ih _ _ _ _ _ h
        | n + 3, h => exact ih _ _ _ _ _ h

/-! ### Embedded-payload decoding: `_get_picker_data` (lines 223-228) -/

/-- A JSON value, as produced by `json.loads`. -/
inductive PyJson where
  | jnull
  | jbool (b : Bool)
  | jnum (n : Int)
  | jstr (s : String)
  | jarr (elems : List PyJson)
  | jobj (fields : List (String × PyJson))

/-- Python `d[k]` on a parsed JSON value: a key lookup on an object,
`none` (an error) otherwise. -/
def jsonGet : PyJson → String → Option PyJson
  | .jobj fields, k => fields.lookup k
  | _, _ => none

/-- The literal marker of line 225. -/
def serverDataMarker : List Char := "window.serverData = \"".data

/-- Lines 223-228, parametrised by `json.loads` (stdlib, abstracted as a
function from bytes): split on the marker and take element 1 (an
`IndexError` when the marker is absent), split on `'"'` and take
element 0, strip, append `"===="`, base64-decode, JSON-parse, and take
the `"data"` key.  The source wraps none of this in a handler, so every
failure propagates as the raw error of the failing step. -/
def get_picker_data_decode (parseJson : List Nat → Except PyExc PyJson)
    (body : List Char) : Except PyExc PyJson :=
  match (pySplit body serverDataMarker)[1]? with
  | none => .error .indexError
  | some afterMarker =>
    match decodeWithPadding (pyStrip ((pySplit afterMarker "\"".data).headD [])) with
    | .error e => .error e
    | .ok bytes =>
      match parseJson bytes with
      | .error e => .error e
      | .ok j =>
        match jsonGet j "data" with
        | some v => .ok v
        | none => .error .keyError

/-- A `json.loads` stand-in that always fails with a JSON decode error. -/
def failingJsonLoads : List Nat → Except PyExc PyJson :=
  fun _ => .error .jsonDecodeError

/-- C2 counterexample: on a response body that does not contain the
marker `window.serverData = "`, `_get_picker_data` raises a raw
`IndexError` (from `split(...)[1]`), which is neither
`KakaoLinkSendExcepetion` nor any `KakaoLinkException` — no handler in
the decoding chain converts it. -/
theorem decode_chain_raises_raw_index_error :
    get_picker_data_decode failingJsonLoads "<html>no picker payload</html>".data =
      .error .indexError ∧
    catches .sendExc .indexError = false ∧
    catches .kakaoLinkException .indexError = false :=
  ⟨rfl, rfl, rfl⟩

/-- C2 (amended): failures in the decoding chain of `_get_picker_data`
propagate as the raw errors of the failing step — an absent marker is
an `IndexError`, a base64 failure is a `binascii.Error`, a JSON failure
is the parser's own error — and the chain never converts any of them
into `KakaoLinkSendExcepetion` (assuming, as for CPython's
`json.loads`, that the parser itself never raises that class). -/
theorem decode_chain_errors_propagate_raw
    (parseJson : List Nat → Except PyExc PyJson) (body : List Char)
    (hp : ∀ bs e, parseJson bs = .error e → e ≠ .sendExc) :
    ((pySplit body serverDataMarker).length ≤ 1 →
      get_picker_data_decode parseJson body = .error .indexError) ∧
    get_picker_data_decode parseJson body ≠ .error .sendExc := by
  constructor
  · intro hlen
    unfold get_picker_data_decode
    rw [List.getElem?_eq_none hlen]
  · unfold get_picker_data_decode
    split
    · simp
    · split
      · rename_i e h2
        have hbin : e = .binasciiError := a2bAux_error_binascii _ _ _ _ _ _ h2
        subst hbin
        simp
      · split
        · rename_i bytes h2 e h3
          have hne := hp _ _ h3
          simp only [ne_eq, Except.error.injEq]
          exact fun hcon => hne hcon
        · split
          · simp
          · simp

/-- C2 witness: the propagation theorem at the concrete marker-free body,
with the concrete always-failing parser. -/
theorem decode_chain_errors_propagate_raw_witness :
    get_picker_data_decode failingJsonLoads "<html>no picker payload</html>".data =
      .error .indexError :=
  (decode_chain_errors_propagate_raw failingJsonLoads
      "<html>no picker payload</html>".data
      (fun bs e h => by
        injection h with h'
        rw [← h']
        decide)).1
    (by decide)

/-! ### Send submission: `_picker_send` (lines 117-143) -/

/-- Method `_picker_send`, as a function of the transport outcome of the POST to
`/picker/send`: a transport-level exception from `client.post`
propagates; otherwise the only status the method inspects is 400, which
raises `KakaoLinkSendExcepetion` — every other status code, 2xx or not,
falls through and returns normally (`httpx` does not raise for HTTP
error statuses unless asked, and the method never calls
`raise_for_status`). -/
def picker_send (postResult : Except PyExc Nat) : Except PyExc Unit :=
  match postResult with
  | .error e => .error e
  | .ok status => if status = 400 then .error .sendExc else .ok ()

/-- C4 counterexample: an HTTP 500 response — non-2xx and not 400 —
makes `_picker_send` return normally; no transport error (or any other
exception) is raised for it. -/
theorem picker_send_500_returns_normally :
    picker_send (.ok 500) = .ok () ∧
    picker_send (.ok 500) ≠ .error .sendExc :=
  ⟨rfl, fun h => Except.noConfusion h⟩

/-- C4 (amended): `_picker_send` raises `KakaoLinkSendExcepetion` exactly
when the response status is 400; every response with any other status —
200 or any other code, including non-2xx codes such as 500 — returns
normally; only a transport-level exception raised by the POST itself
propagates (unchanged, not reclassified). -/
theorem picker_send_status_classification (status : Nat) (e : PyExc) :
    (picker_send (.ok status) = .error .sendExc ↔ status = 400) ∧
    (status ≠ 400 → picker_send (.ok status) = .ok ()) ∧
    picker_send (.error e) = .error e := by
  refine ⟨?_, ?_, rfl⟩
  · by_cases h : status = 400
    · simp [picker_send, h]
    · simp [picker_send, h]
  · intro h
    simp [picker_send, h]

/-- C4 witness: the classification at the concrete statuses 400 and 200. -/
theorem picker_send_status_classification_witness :
    picker_send (.ok 400) = .error .sendExc ∧ picker_send (.ok 200) = .ok () :=
  ⟨(picker_send_status_classification 400 .sendExc).1.mpr rfl,
   (picker_send_status_classification 200 .sendExc).2.1 (by decide)⟩

/-! ### Authentication: `init` (lines 230-251) -/

/-- The network-facing operations `init` can perform, in the order the
source can issue them.  `cookie_storage.load`/`save` are storage, not
network, and are not listed.  `getAccessToken` is the call to the
injected token provider (line 231), which the spec's interface section
allows to perform network I/O of its own. -/
inductive NetOp where
  | getAccessToken
  | checkAuthorized
  | getTgtToken
  | submitTgtToken
deriving DecidableEq

/-- The environment `init` runs against: the outcome of the token
provider call, of the two authorization probes, and of the tgt
exchange and submission. -/
structure InitEnv where
  accessTokenResult : Except PyExc String
  probe1 : Bool
  tgtResult : Except PyExc String
  submitResult : Except PyExc Unit
  probe2 : Bool

/-- Method `init`: fetch the access token (line 231, unconditionally, before
anything else), load cookies (storage), run the first authorization
probe, and return at once if it reports valid; otherwise exchange the
access token for a tgt token, submit it, re-probe, and raise
`KakaoLinkLoginExcepetion` if still unauthorized.  The result is paired
with the ordered list of network operations performed. -/
def init_run (env : InitEnv) : Except PyExc Unit × List NetOp :=
  match env.accessTokenResult with
  | .error e => (.error e, [.getAccessToken])
  | .ok _ =>
    if env.probe1 then (.ok (), [.getAccessToken, .checkAuthorized])
    else
      match env.tgtResult with
      | .error e => (.error e, [.getAccessToken, .checkAuthorized, .getTgtToken])
      | .ok _ =>
        match env.submitResult with
        | .error e =>
          (.error e, [.getAccessToken, .checkAuthorized, .getTgtToken, .submitTgtToken])
        | .ok _ =>
          if env.probe2 then
            (.ok (), [.getAccessToken, .checkAuthorized, .getTgtToken,
                      .submitTgtToken, .checkAuthorized])
          else
            (.error .loginExc, [.getAccessToken, .checkAuthorized, .getTgtToken,
                                .submitTgtToken, .checkAuthorized])

/-- C3 counterexample: for a warm session (first probe accepts), `init`
still performs a network-capable call that is not the probe — the
access-token acquisition of line 231 runs unconditionally *before* the
probe — so the trace is not probe-only. -/
theorem init_warm_path_acquires_token :
    init_run ⟨.ok "token", true, .ok "tgt", .ok (), false⟩ =
      (.ok (), [.getAccessToken, .checkAuthorized]) ∧
    NetOp.getAccessToken ≠ NetOp.checkAuthorized :=
  ⟨rfl, by decide⟩

/-- C3 (amended): for any environment whose token provider succeeds and
whose first probe accepts the loaded session, `init` returns
successfully having performed exactly the access-token acquisition
(before the probe) and the probe itself — no tgt-token exchange, no
tgt submission, no second probe, no other request. -/
theorem init_warm_path_trace (env : InitEnv) (tok : String)
    (htok : env.accessTokenResult = .ok tok) (hprobe : env.probe1 = true) :
    init_run env = (.ok (), [.getAccessToken, .checkAuthorized]) := by
  unfold init_run
  rw [htok, hprobe]
  simp

/-- C3 witness: the warm-path trace at a concrete environment. -/
theorem init_warm_path_trace_witness :
    init_run ⟨.ok "t", true, .error .loginExc, .ok (), false⟩ =
      (.ok (), [.getAccessToken, .checkAuthorized]) :=
  init_warm_path_trace ⟨.ok "t", true, .error .loginExc, .ok (), false⟩ "t" rfl rfl

/-! ### Configuration check of `send` (lines 88-92) -/

/-- Python truthiness of an optional string (`None` and `""` are falsy). -/
def pyTruthy : Option String → Bool
  | none => false
  | some s => decide (s ≠ "")

/-- Method `send`, up to its configuration check, parametrised by the rest of
the method (everything from line 94 on, which performs the network
work): line 88-89 fall back to the defaults via Python `or`; lines
91-92 raise the *base* class `KakaoLinkException` — not a dedicated
subclass — when either effective value is falsy, before the lock is
taken and before any network call; the network-operation trace of such
a failed call is empty. -/
def send_run (rest : String → String → Except PyExc Unit × List NetOp)
    (app_key origin default_app_key default_origin : Option String) :
    Except PyExc Unit × List NetOp :=
  let ak := if pyTruthy app_key then app_key else default_app_key
  let og := if pyTruthy origin then origin else default_origin
  if !pyTruthy ak || !pyTruthy og then (.error .kakaoLinkException, [])
  else rest (ak.getD "") (og.getD "")

/-- C9 counterexample: with no app key and no origin, `send` raises the
*base* `KakaoLinkException` — the class every other failure class of
the taxonomy subclasses — so the configuration failure is not a
dedicated class distinguishable from the others by exception matching:
a handler for the raised class also catches `KakaoLinkSendExcepetion`
and `KakaoLinkLoginExcepetion` instances. -/
theorem config_error_is_base_class :
    send_run (fun _ _ => (.ok (), [.checkAuthorized])) none none none none =
      (.error .kakaoLinkException, []) ∧
    catches .kakaoLinkException .sendExc = true ∧
    catches .kakaoLinkException .loginExc = true :=
  ⟨rfl, rfl, rfl⟩

/-- C9 (amended): whenever the effective app key or the effective origin
(argument, falling back to the configured default under Python `or`) is
missing or empty, `send` fails with the base `KakaoLinkException`
before any network activity — the trace is empty regardless of what the
rest of the method would do. -/
theorem missing_config_fails_before_network
    (rest : String → String → Except PyExc Unit × List NetOp)
    (app_key origin default_app_key default_origin : Option String)
    (h : pyTruthy (if pyTruthy app_key then app_key else default_app_key) = false ∨
         pyTruthy (if pyTruthy origin then origin else default_origin) = false) :
    send_run rest app_key origin default_app_key default_origin =
      (.error .kakaoLinkException, []) := by
  unfold send_run
  rcases h with h | h <;> simp [h]

/-- C9 witness: missing configuration at concrete arguments (no per-call
values, empty-string defaults). -/
theorem missing_config_fails_before_network_witness :
    send_run (fun _ _ => (.ok (), [.checkAuthorized])) none none (some "") (some "key") =
      (.error .kakaoLinkException, []) :=
  missing_config_fails_before_network (fun _ _ => (.ok (), [.checkAuthorized]))
    none none (some "") (some "key") (Or.inl (by decide))
